import Mathlib

/-!
Verification of the mcp-pihole repository: a shallow embedding of the
Pi-hole v6 session-authenticated API client (src/pihole-client.ts), the
tool-dispatch result messages (src/index.ts), and the ASCII visualization
module (src/ascii-viz.ts), together with theorems settling the frozen
claims about the natural-language specification.

Conventions of the embedding:
- JavaScript numbers used as timestamps and validity windows are modelled
  as integers of milliseconds (the source only ever adds and compares
  them); counts are naturals; values fed to the bar renderer are rationals
  (the source uses binary doubles; all claim-relevant inputs are exactly
  representable and the arithmetic agrees).
- fetch responses are modelled as explicit records passed in as arguments
  (ok flag, status, statusText, parsed body); thrown errors become an
  explicit error type in an Except result.
- JavaScript truthiness on an optional string (the pattern x or-else d)
  is modelled by jsStringOr: an absent or empty string selects the
  default.
-/

/-! ## Session client state (class PiholeClient, src/pihole-client.ts) -/

/-- The mutable fields of PiholeClient: `sid`, `csrf` (both initially
null) and `sessionExpiry` (initially 0), an absolute instant in
milliseconds. -/
structure ClientState where
  sid : Option String
  csrf : Option String
  sessionExpiry : Int
deriving Repr, DecidableEq

/-- The initial state of a freshly constructed client: no token held. -/
def ClientState.init : ClientState := ⟨none, none, 0⟩

/-- The session object of the authentication response payload
(interface AuthResponse.session). The source reads `message` through
optional chaining and a truthiness check, so it is modelled as an
optional string. -/
structure SessionPayload where
  valid : Bool
  sid : String
  csrf : String
  validity : Int
  message : Option String
deriving Repr, DecidableEq

/-- The transport outcome of the POST /api/auth exchange: the fetch
response's ok flag, status and statusText, plus the decoded JSON body's
`session` field (absent when the body has none, per the source's
`data.session?` optional chaining). -/
structure AuthExchange where
  ok : Bool
  status : Nat
  statusText : String
  session : Option SessionPayload
deriving Repr, DecidableEq

/-- The transport outcome of an authenticated API request: ok flag,
status, statusText, the raw body text (`await response.text()`, read on
the failure path), and the structurally decoded body
(`response.json() as Promise of T`), which the source returns untouched. -/
structure ApiExchange (α : Type) where
  ok : Bool
  status : Nat
  statusText : String
  bodyText : String
  parsed : α

/-- Errors thrown by the client. The source throws plain Error values
whose messages distinguish the three sites; the spec names them
AuthenticationError (transport auth failure), AuthenticationError with a
remote or default message (invalid session), and ApiError (non-success
response to an authenticated call, carrying status, statusText and the
raw body). -/
inductive PiholeError where
  | authFailure (status : Nat) (statusText : String)
  | invalidSession (message : String)
  | apiFailure (status : Nat) (statusText : String) (body : String)
deriving Repr, DecidableEq

/-- The message string of the thrown Error, exactly as interpolated in
the source. -/
def PiholeError.message : PiholeError → String
  | .authFailure status statusText =>
      "Authentication failed: " ++ toString status ++ " " ++ statusText
  | .invalidSession m => "Authentication failed: " ++ m
  | .apiFailure status statusText body =>
      "API request failed: " ++ toString status ++ " " ++ statusText ++ " - " ++ body

/-- JavaScript `x || d` on an optional string: an absent or empty
(falsy) string selects the default. -/
def jsStringOr (x : Option String) (d : String) : String :=
  match x with
  | some s => if s = "" then d else s
  | none => d

/-- PiholeClient.authenticate (src/pihole-client.ts lines 730-752): on a
non-ok response throw with the status; when the payload has no valid
session throw with the remote message or the default; otherwise store
sid, csrf and sessionExpiry = now + validity * 1000.  `now` is
Date.now() in milliseconds; `resp` is the outcome of the exchange. -/
def authenticate (now : Int) (resp : AuthExchange) : Except PiholeError ClientState :=
  if resp.ok = false then
    .error (.authFailure resp.status resp.statusText)
  else
    match resp.session with
    | none => .error (.invalidSession (jsStringOr none "Invalid credentials"))
    | some s =>
        if s.valid = false then
          .error (.invalidSession (jsStringOr s.message "Invalid credentials"))
        else
          .ok ⟨some s.sid, some s.csrf, now + s.validity * 1000⟩

/-- The staleness test of PiholeClient.ensureAuthenticated
(src/pihole-client.ts line 758): re-authenticate when no sid is held or
Date.now() is at or past sessionExpiry minus 60000 ms. -/
def needsReauth (st : ClientState) (now : Int) : Bool :=
  st.sid.isNone || decide (now ≥ st.sessionExpiry - 60000)

/-- PiholeClient.ensureAuthenticated (src/pihole-client.ts lines
757-761), instrumented with the number of authentication exchanges it
performs (0 or 1).  `authResp` is the outcome the exchange would have if
performed. -/
def ensureAuthenticated (st : ClientState) (now : Int) (authResp : AuthExchange) :
    Except PiholeError ClientState × Nat :=
  if needsReauth st now then (authenticate now authResp, 1) else (.ok st, 0)

/-- PiholeClient.request (src/pihole-client.ts lines 766-790),
instrumented with the authentication-exchange count: ensure a valid
session, then issue the request; on a non-ok response read the body text
and throw an ApiError carrying status, statusText and the body;
otherwise return the decoded body untouched together with the (possibly
renewed) client state. -/
def request (st : ClientState) (now : Int) (authResp : AuthExchange)
    (resp : ApiExchange α) : Except PiholeError (ClientState × α) × Nat :=
  match ensureAuthenticated st now authResp with
  | (.error e, n) => (.error e, n)
  | (.ok st', n) =>
      if resp.ok = false then
        (.error (.apiFailure resp.status resp.statusText resp.bodyText), n)
      else
        (.ok (st', resp.parsed), n)

/-! ### Helper lemmas on the auth-exchange count -/

theorem request_snd_eq (st : ClientState) (now : Int) (authResp : AuthExchange)
    (resp : ApiExchange α) :
    (request st now authResp resp).2 = if needsReauth st now then 1 else 0 := by
  unfold request ensureAuthenticated
  by_cases h : needsReauth st now <;> simp only [h, if_true, if_false] <;>
    [rcases authenticate now authResp with e | s; skip] <;>
      by_cases hok : resp.ok = false <;> simp [hok]

/-! ## Claim theorems C1 - C3 -/

/-- C1: every operation goes through the staleness check first: with no
session token held, or with the current time at or past the stored
expiry minus 60 seconds (inclusive at the exact 60-second boundary),
exactly one authentication exchange is performed before the request;
with a token held and the current time strictly more than 60 seconds
before expiry, zero exchanges are performed. -/
theorem claim_C1_session_staleness (st : ClientState) (now : Int)
    (authResp : AuthExchange) (resp : ApiExchange α) :
    ((request st now authResp resp).2 = 1 ↔
      (st.sid = none ∨ now ≥ st.sessionExpiry - 60000)) ∧
    ((request st now authResp resp).2 = 0 ↔
      (st.sid ≠ none ∧ now < st.sessionExpiry - 60000)) := by
  rw [request_snd_eq]
  unfold needsReauth
  rcases st.sid with _ | s <;> simp <;> omega

/-- C2: authenticate fails with an AuthenticationError carrying the
transport status on a non-success response; on a success response whose
session is invalid it fails with the remote-supplied message when one is
present (non-empty), else the fixed default "Invalid credentials"; and
only on a valid session does it produce a state storing the token, the
anti-forgery token, and expiry = now + validity seconds (milliseconds
internally). -/
theorem claim_C2_authenticate (now : Int) (resp : AuthExchange) :
    (resp.ok = false →
      authenticate now resp = .error (.authFailure resp.status resp.statusText)) ∧
    (∀ s m, resp.ok = true → resp.session = some s → s.valid = false →
      s.message = some m → m ≠ "" →
      authenticate now resp = .error (.invalidSession m)) ∧
    (∀ s, resp.ok = true → resp.session = some s → s.valid = false →
      s.message = none →
      authenticate now resp = .error (.invalidSession "Invalid credentials")) ∧
    (∀ s, resp.ok = true → resp.session = some s → s.valid = true →
      authenticate now resp = .ok ⟨some s.sid, some s.csrf, now + s.validity * 1000⟩) := by
  refine ⟨fun hok => ?_, fun s m hok hs hv hm hne => ?_, fun s hok hs hv hm => ?_,
    fun s hok hs hv => ?_⟩ <;>
    simp [authenticate, hok] <;> simp_all [jsStringOr]

/-- C2 witness: a concrete invalid-session exchange carrying a remote
message fails with exactly that message. -/
theorem claim_C2_authenticate_witness :
    authenticate 5000
        ⟨true, 200, "OK", some ⟨false, "", "", 300, some "password incorrect"⟩⟩ =
      .error (.invalidSession "password incorrect") :=
  (claim_C2_authenticate 5000
      ⟨true, 200, "OK", some ⟨false, "", "", 300, some "password incorrect"⟩⟩).2.1
    ⟨false, "", "", 300, some "password incorrect"⟩ "password incorrect"
    rfl rfl rfl rfl (by decide)

/-- C3: once the session is ensured, a non-success transport response
makes the request fail with an ApiError carrying the status code, the
status text and the raw response body (read in full before the failure);
a success response yields the structurally decoded body returned to the
caller untouched. -/
theorem claim_C3_request_wrapper (st st' : ClientState) (now : Int)
    (authResp : AuthExchange) (resp : ApiExchange α)
    (hauth : (ensureAuthenticated st now authResp).1 = .ok st') :
    (resp.ok = false →
      (request st now authResp resp).1 =
        .error (.apiFailure resp.status resp.statusText resp.bodyText)) ∧
    (resp.ok = true → (request st now authResp resp).1 = .ok (st', resp.parsed)) := by
  unfold request
  rcases h : ensureAuthenticated st now authResp with ⟨e | s'', n⟩ <;>
    rw [h] at hauth <;> simp at hauth
  subst hauth
  constructor <;> intro hok <;> simp [hok]

/-- C3 witness: with a fresh session in hand (no re-authentication
needed), a concrete 404 response fails with an ApiError carrying status,
status text and body, and a concrete success response returns its parsed
body untouched. -/
theorem claim_C3_request_wrapper_witness :
    (request ⟨some "tok", some "c", 1000000⟩ 0
        ⟨true, 200, "OK", none⟩
        (⟨false, 404, "Not Found", "missing", 99⟩ : ApiExchange Nat)).1 =
      .error (.apiFailure 404 "Not Found" "missing") ∧
    (request ⟨some "tok", some "c", 1000000⟩ 0
        ⟨true, 200, "OK", none⟩
        (⟨true, 200, "OK", "", 99⟩ : ApiExchange Nat)).1 =
      .ok (⟨some "tok", some "c", 1000000⟩, 99) :=
  ⟨(claim_C3_request_wrapper ⟨some "tok", some "c", 1000000⟩
      ⟨some "tok", some "c", 1000000⟩ 0 ⟨true, 200, "OK", none⟩
      ⟨false, 404, "Not Found", "missing", 99⟩ rfl).1 rfl,
   (claim_C3_request_wrapper ⟨some "tok", some "c", 1000000⟩
      ⟨some "tok", some "c", 1000000⟩ 0 ⟨true, 200, "OK", none⟩
      ⟨true, 200, "OK", "", 99⟩ rfl).2 rfl⟩

/-! ## Endpoint construction and tool handlers (C4, C5, C9, C10) -/

/-- JavaScript truthiness of an optional numeric argument: absent or
zero is falsy (the source also treats NaN as falsy; NaN is not
modelled). -/
def jsTruthy (x : Option Int) : Bool :=
  match x with
  | some n => n != 0
  | none => false

/-- JavaScript `x || d` on an optional numeric argument, the pattern
used by the tool handlers (`count || 10`, `count || 100`). -/
def jsNumOr (x : Option Int) (d : Int) : Int :=
  match x with
  | some n => if n = 0 then d else n
  | none => d

/-- PiholeClient.getTopBlockedDomains (line 802): endpoint with the
caller's count, defaulting to 10 when the argument is omitted. -/
def getTopBlockedDomainsEndpoint (count : Option Int) : String :=
  "/stats/top_domains?blocked=true&count=" ++ toString (count.getD 10)

/-- PiholeClient.getTopPermittedDomains (line 809). -/
def getTopPermittedDomainsEndpoint (count : Option Int) : String :=
  "/stats/top_domains?blocked=false&count=" ++ toString (count.getD 10)

/-- PiholeClient.getTopClients (line 816). -/
def getTopClientsEndpoint (count : Option Int) : String :=
  "/stats/top_clients?count=" ++ toString (count.getD 10)

/-- PiholeClient.getQueryLog (line 823), default 100. -/
def getQueryLogEndpoint (count : Option Int) : String :=
  "/queries?length=" ++ toString (count.getD 100)

/-- The pihole_get_top_blocked tool handler (src/index.ts line 367)
resolves its count argument with `count || 10` and always passes the
result explicitly to the client method. -/
def toolTopBlockedEndpoint (argCount : Option Int) : String :=
  getTopBlockedDomainsEndpoint (some (jsNumOr argCount 10))

/-- The pihole_get_top_permitted tool handler (line 397). -/
def toolTopPermittedEndpoint (argCount : Option Int) : String :=
  getTopPermittedDomainsEndpoint (some (jsNumOr argCount 10))

/-- The pihole_get_top_clients tool handler (line 427). -/
def toolTopClientsEndpoint (argCount : Option Int) : String :=
  getTopClientsEndpoint (some (jsNumOr argCount 10))

/-- The pihole_get_query_log tool handler (line 457), `count || 100`. -/
def toolQueryLogEndpoint (argCount : Option Int) : String :=
  getQueryLogEndpoint (some (jsNumOr argCount 100))

/-! ### Mutating-operation result messages (src/index.ts tool handlers) -/

/-- The source's BlockingStatus: blocking is the string "enabled" or
"disabled"; timer is a number or null. -/
structure BlockingStatus where
  blocking : String
  timer : Option Int
deriving Repr, DecidableEq

/-- Result shape of the gravity and cache-flush actions. -/
structure ActionResult where
  success : Bool
deriving Repr, DecidableEq

/-- pihole_enable_blocking handler text (src/index.ts line 345): success
is reported only when the returned status equals "enabled". -/
def enableBlockingMessage (status : BlockingStatus) : String :=
  "Blocking " ++
    (if status.blocking = "enabled" then "enabled successfully" else "failed to enable")

/-- pihole_disable_blocking handler text (lines 352-363): the text
depends only on the duration argument; the returned status is never
inspected. -/
def disableBlockingMessage (duration : Option Int) (_status : BlockingStatus) : String :=
  if jsTruthy duration then
    "Blocking disabled for " ++ toString (duration.getD 0) ++ " seconds"
  else
    "Blocking disabled indefinitely"

/-- pihole_add_to_whitelist handler text (lines 479-489): the client
call's response is discarded; the text depends only on the domain. -/
def addToWhitelistMessage (domain : String) (_resp : α) : String :=
  "Domain \x27" ++ domain ++ "\x27 added to whitelist"

/-- pihole_add_to_blacklist handler text (lines 492-502). -/
def addToBlacklistMessage (domain : String) (_resp : α) : String :=
  "Domain \x27" ++ domain ++ "\x27 added to blacklist"

/-- pihole_remove_from_whitelist handler text (lines 505-515). -/
def removeFromWhitelistMessage (domain : String) (_resp : α) : String :=
  "Domain \x27" ++ domain ++ "\x27 removed from whitelist"

/-- pihole_remove_from_blacklist handler text (lines 518-528). -/
def removeFromBlacklistMessage (domain : String) (_resp : α) : String :=
  "Domain \x27" ++ domain ++ "\x27 removed from blacklist"

/-- pihole_update_gravity handler text (lines 561-572): success reported
per the response's success flag. -/
def updateGravityMessage (result : ActionResult) : String :=
  if result.success then "Gravity update started successfully" else "Gravity update failed"

/-- pihole_flush_cache handler text (lines 575-586). -/
def flushCacheMessage (result : ActionResult) : String :=
  if result.success then "DNS cache flushed successfully" else "Failed to flush DNS cache"

/-- PiholeClient.disableBlocking request body (lines 847-856): start
from blocking=false and add a timer field only when the duration
argument is truthy (present and non-zero). -/
structure BlockingRequestBody where
  blocking : Bool
  timer : Option Int
deriving Repr, DecidableEq

/-- The body POSTed to /dns/blocking by disableBlocking. -/
def disableBlockingBody (duration : Option Int) : BlockingRequestBody :=
  match duration with
  | some d => ⟨false, if d = 0 then none else some d⟩
  | none => ⟨false, none⟩

/-! ### encodeURIComponent (ECMA-262), used by the removal endpoints -/

/-- Characters encodeURIComponent leaves unescaped: ASCII letters,
digits, and - _ . ! ~ * apostrophe ( ). -/
def uriUnescaped (c : Char) : Bool :=
  (('A' ≤ c && c ≤ 'Z') || ('a' ≤ c && c ≤ 'z') || ('0' ≤ c && c ≤ '9')) ||
    (c = '-' || c = '_' || c = '.' || c = '!' || c = '~' || c = '*' ||
      c = '\x27' || c = '(' || c = ')')

/-- The UTF-8 bytes of a Unicode scalar value. -/
def utf8Bytes (n : Nat) : List Nat :=
  if n < 128 then [n]
  else if n < 2048 then [192 + n / 64, 128 + n % 64]
  else if n < 65536 then [224 + n / 4096, 128 + n / 64 % 64, 128 + n % 64]
  else [240 + n / 262144, 128 + n / 4096 % 64, 128 + n / 64 % 64, 128 + n % 64]

/-- The sixteen uppercase hexadecimal digits. -/
def hexChars : List Char :=
  ['0', '1', '2', '3', '4', '5', '6', '7', '8', '9', 'A', 'B', 'C', 'D', 'E', 'F']

/-- One hexadecimal digit character. -/
def hexDigit (n : Nat) : Char := hexChars.getD n '0'

/-- A percent-escape for one byte: percent sign plus two uppercase hex
digits. -/
def byteEscape (b : Nat) : List Char := ['%', hexDigit (b / 16), hexDigit (b % 16)]

/-- encodeURIComponent on one character: kept verbatim when unescaped,
otherwise each UTF-8 byte becomes a percent-escape. -/
def encodeChar (c : Char) : List Char :=
  if uriUnescaped c then [c]
  else (utf8Bytes c.toNat).foldr (fun b acc => byteEscape b ++ acc) []

/-- encodeURIComponent over a character list. -/
def encodeChars : List Char → List Char
  | [] => []
  | c :: cs => encodeChar c ++ encodeChars cs

/-- encodeURIComponent on a string. -/
def encodeURIComponent (s : String) : String := String.mk (encodeChars s.data)

/-- PiholeClient.removeFromWhitelist (lines 881-885): HTTP method and
endpoint of the issued request; the domain is percent-encoded into the
final path segment. -/
def removeFromWhitelistRequestLine (domain : String) : String × String :=
  ("DELETE", "/domains/allow/exact/" ++ encodeURIComponent domain)

/-- PiholeClient.removeFromBlacklist (lines 890-894). -/
def removeFromBlacklistRequestLine (domain : String) : String × String :=
  ("DELETE", "/domains/deny/exact/" ++ encodeURIComponent domain)

/-- Every character produced by encodeURIComponent is either an
unescaped character, a percent sign, or an uppercase hex digit. -/
def uriOutputChar (c : Char) : Prop :=
  uriUnescaped c = true ∨ c = '%' ∨ c ∈ hexChars

theorem getD_mem_or {α : Type} (l : List α) (n : Nat) (d : α) :
    l.getD n d ∈ l ∨ l.getD n d = d := by
  induction l generalizing n with
  | nil => right; simp [List.getD]
  | cons a t ih =>
      cases n with
      | zero => left; simp [List.getD]
      | succ m =>
          rcases ih m with h | h
          · left; exact List.mem_cons_of_mem _ (by simpa [List.getD] using h)
          · right; simpa [List.getD] using h

theorem hexDigit_mem (n : Nat) : hexDigit n ∈ hexChars := by
  rcases getD_mem_or hexChars n '0' with h | h
  · exact h
  · rw [hexDigit, h]; decide

theorem byteEscape_ok (b : Nat) : ∀ c ∈ byteEscape b, uriOutputChar c := by
  intro c hc
  rcases hc with _ | ⟨_, hc⟩
  · right; left; rfl
  · rcases hc with _ | ⟨_, hc⟩
    · right; right; exact hexDigit_mem _
    · rcases hc with _ | ⟨_, hc⟩
      · right; right; exact hexDigit_mem _
      · cases hc

theorem encodeChar_ok (c : Char) : ∀ x ∈ encodeChar c, uriOutputChar x := by
  intro x hx
  unfold encodeChar at hx
  by_cases h : uriUnescaped c
  · simp [h] at hx
    subst hx
    exact .inl h
  · simp only [h, if_false] at hx
    generalize utf8Bytes c.toNat = bs at hx
    induction bs with
    | nil => cases hx
    | cons b t ih =>
        simp only [List.foldr_cons] at hx
        rcases List.mem_append.mp hx with h1 | h2
        · exact byteEscape_ok b x h1
        · exact ih h2

theorem encodeChars_ok (l : List Char) : ∀ x ∈ encodeChars l, uriOutputChar x := by
  induction l with
  | nil => intro x hx; cases hx
  | cons c cs ih =>
      intro x hx
      rcases List.mem_append.mp hx with h1 | h2
      · exact encodeChar_ok c x h1
      · exact ih x h2

/-! ## Claim theorems C4, C5, C9, C10 -/

/-- C4 counterexample: an explicit count of 0 supplied through the
pihole_get_top_blocked tool is replaced by the default 10 in the
outgoing query string (the handler resolves the argument with a
falsy-or), contradicting the claim that zero is never substituted; the
query-log tool likewise turns an explicit 0 into 100. -/
theorem claim_C4_counterexample :
    toolTopBlockedEndpoint (some 0) = "/stats/top_domains?blocked=true&count=10" ∧
    toolTopBlockedEndpoint (some 0) ≠ "/stats/top_domains?blocked=true&count=0" ∧
    toolQueryLogEndpoint (some 0) = "/queries?length=100" := by
  refine ⟨rfl, ?_, rfl⟩
  decide

/-- C4 amended: at the client-method level every explicitly passed count
(zero and negatives included) is encoded verbatim in the query string
and the defaults 10 and 100 apply only when the argument is omitted; the
tool handlers, however, resolve their count argument with a JavaScript
falsy-or, so an explicit 0 arriving through the tool interface is
replaced by the default while non-zero (including negative) counts pass
through verbatim. -/
theorem claim_C4_count_encoding :
    (∀ n : Int, getTopBlockedDomainsEndpoint (some n) =
      "/stats/top_domains?blocked=true&count=" ++ toString n) ∧
    (∀ n : Int, getTopPermittedDomainsEndpoint (some n) =
      "/stats/top_domains?blocked=false&count=" ++ toString n) ∧
    (∀ n : Int, getTopClientsEndpoint (some n) =
      "/stats/top_clients?count=" ++ toString n) ∧
    (∀ n : Int, getQueryLogEndpoint (some n) = "/queries?length=" ++ toString n) ∧
    getTopBlockedDomainsEndpoint none = "/stats/top_domains?blocked=true&count=10" ∧
    getQueryLogEndpoint none = "/queries?length=100" ∧
    (∀ n : Int, n ≠ 0 → toolTopBlockedEndpoint (some n) =
      "/stats/top_domains?blocked=true&count=" ++ toString n) ∧
    (∀ n : Int, n ≠ 0 → toolQueryLogEndpoint (some n) =
      "/queries?length=" ++ toString n) ∧
    toolTopBlockedEndpoint (some 0) = toolTopBlockedEndpoint none ∧
    toolQueryLogEndpoint (some 0) = toolQueryLogEndpoint none := by
  refine ⟨fun n => rfl, fun n => rfl, fun n => rfl, fun n => rfl, rfl, rfl,
    fun n hn => ?_, fun n hn => ?_, rfl, rfl⟩ <;>
    simp [toolTopBlockedEndpoint, toolQueryLogEndpoint, getTopBlockedDomainsEndpoint,
      getQueryLogEndpoint, jsNumOr, hn]

/-- C4 witness: a negative explicit count passes through the tool
handler verbatim. -/
theorem claim_C4_count_encoding_witness :
    (-5 : Int) ≠ 0 ∧
      toolTopBlockedEndpoint (some (-5)) =
        "/stats/top_domains?blocked=true&count=" ++ toString (-5 : Int) :=
  ⟨by decide, claim_C4_count_encoding.2.2.2.2.2.2.1 (-5) (by decide)⟩

/-- C5 counterexample: the pihole_disable_blocking handler reports
success without inspecting the remote response at all — even a response
whose status field still reads "enabled" yields the success text — so
not every mutating operation bases its report on the response shape. -/
theorem claim_C5_counterexample :
    disableBlockingMessage none ⟨"enabled", none⟩ = "Blocking disabled indefinitely" ∧
    disableBlockingMessage none ⟨"enabled", none⟩ =
      disableBlockingMessage none ⟨"disabled", none⟩ ∧
    addToWhitelistMessage "ads.example.com" true =
      addToWhitelistMessage "ads.example.com" false := by
  exact ⟨rfl, rfl, rfl⟩

/-- C5 amended: the enable-blocking, gravity-rebuild and cache-flush
handlers report success from the remote response shape — enable-blocking
succeeds exactly when the returned status equals "enabled", the other
two exactly when the success flag is true — but the disable-blocking and
list add/remove handlers report success on any transport-successful
response, independent of the response's content. -/
theorem claim_C5_mutation_reports :
    (∀ s : BlockingStatus,
      (enableBlockingMessage s = "Blocking enabled successfully" ↔ s.blocking = "enabled")) ∧
    (∀ g : ActionResult,
      (updateGravityMessage g = "Gravity update started successfully" ↔ g.success = true)) ∧
    (∀ f : ActionResult,
      (flushCacheMessage f = "DNS cache flushed successfully" ↔ f.success = true)) ∧
    (∀ (d : Option Int) (s s' : BlockingStatus),
      disableBlockingMessage d s = disableBlockingMessage d s') ∧
    (∀ (dom : String) (r r' : Bool),
      addToWhitelistMessage dom r = addToWhitelistMessage dom r' ∧
      addToBlacklistMessage dom r = addToBlacklistMessage dom r' ∧
      removeFromWhitelistMessage dom r = removeFromWhitelistMessage dom r' ∧
      removeFromBlacklistMessage dom r = removeFromBlacklistMessage dom r') := by
  refine ⟨fun s => ?_, fun g => ?_, fun f => ?_, fun d s s' => rfl,
    fun dom r r' => ⟨rfl, rfl, rfl, rfl⟩⟩
  · by_cases h : s.blocking = "enabled" <;> simp [enableBlockingMessage, h]
  · rcases g with ⟨b⟩; cases b <;> simp [updateGravityMessage]
  · rcases f with ⟨b⟩; cases b <;> simp [flushCacheMessage]

/-- C9: both removal operations issue a DELETE whose path is the fixed
prefix followed by the percent-encoded domain; the encoding emits only
unescaped characters, percent signs and hex digits, so reserved
characters such as a space or an ampersand never appear verbatim in the
path segment; concretely, "a b&c.com" is encoded as "a%20b%26c.com". -/
theorem claim_C9_percent_encoded_removal (domain : String) :
    removeFromWhitelistRequestLine domain =
      ("DELETE", "/domains/allow/exact/" ++ encodeURIComponent domain) ∧
    removeFromBlacklistRequestLine domain =
      ("DELETE", "/domains/deny/exact/" ++ encodeURIComponent domain) ∧
    (∀ c ∈ (encodeURIComponent domain).data, c ≠ ' ' ∧ c ≠ '&') ∧
    encodeURIComponent "a b&c.com" = "a%20b%26c.com" := by
  refine ⟨rfl, rfl, fun c hc => ?_, by decide⟩
  have h := encodeChars_ok domain.data c (by simpa [encodeURIComponent] using hc)
  rcases h with h | h | h
  · constructor <;> rintro rfl <;> simp [uriUnescaped] at h
  · subst h; exact ⟨by decide, by decide⟩
  · fin_cases h <;> exact ⟨by decide, by decide⟩

/-- C10: the disable-blocking request body carries a timer equal to the
duration only when the duration is a truthy number; an omitted or zero
duration yields exactly the body with blocking=false and no timer, so a
0-second disable request is an indefinite disable. -/
theorem claim_C10_disable_body :
    disableBlockingBody none = ⟨false, none⟩ ∧
    disableBlockingBody (some 0) = ⟨false, none⟩ ∧
    (∀ d : Int, d ≠ 0 → disableBlockingBody (some d) = ⟨false, some d⟩) := by
  refine ⟨rfl, rfl, fun d hd => ?_⟩
  simp [disableBlockingBody, hd]

/-- C10 witness: a 300-second disable carries timer = 300. -/
theorem claim_C10_disable_body_witness :
    (300 : Int) ≠ 0 ∧ disableBlockingBody (some 300) = ⟨false, some 300⟩ :=
  ⟨by decide, claim_C10_disable_body.2.2 300 (by decide)⟩

/-! ## ASCII visualization module (src/ascii-viz.ts) -/

/-- ANSI color codes (object C of the source). -/
def C.RESET : String := "\x1b[0m"

def C.BOLD : String := "\x1b[1m"

def C.DIM : String := "\x1b[2m"

def C.RED : String := "\x1b[31m"

def C.GREEN : String := "\x1b[32m"

def C.YELLOW : String := "\x1b[33m"

def C.BLUE : String := "\x1b[34m"

def C.MAGENTA : String := "\x1b[35m"

def C.CYAN : String := "\x1b[36m"

def C.WHITE : String := "\x1b[37m"

def C.BRIGHT_RED : String := "\x1b[91m"

def C.BRIGHT_GREEN : String := "\x1b[92m"

def C.BRIGHT_YELLOW : String := "\x1b[93m"

def C.BRIGHT_BLUE : String := "\x1b[94m"

def C.BRIGHT_MAGENTA : String := "\x1b[95m"

def C.BRIGHT_CYAN : String := "\x1b[96m"

/-- Box drawing characters (object BOX of the source). -/
def BOX.TL : String := "╔"

def BOX.TR : String := "╗"

def BOX.BL : String := "╚"

def BOX.BR : String := "╝"

def BOX.H : String := "═"

def BOX.V : String := "║"

def BOX.LT : String := "╠"

def BOX.RT : String := "╣"

def BOX.THIN : String := "─"

/-- The full-block bar glyph (constant BAR_FULL). -/
def BAR_FULL : String := "█"

/-- The eight-step sub-character fill glyphs (source constant named for
the fractional bar endings), indexed 0-7; index 0 is the empty string. -/
def barEighths : List String := ["", "▏", "▎", "▍", "▌", "▋", "▊", "▉"]

/-- The UTF-16 code-unit count of one character, which is what
JavaScript's String.length counts. -/
def utf16Len (c : Char) : Nat := if c.toNat < 65536 then 1 else 2

/-- JavaScript String.length: UTF-16 code units. -/
def jsLength (s : String) : Nat := (s.data.map utf16Len).sum

/-- JavaScript String.slice(0, w) measured in UTF-16 units, restricted
to whole characters (the sources never split a surrogate pair). -/
def utf16Take : List Char → Nat → List Char
  | [], _ => []
  | c :: cs, w => if utf16Len c ≤ w then c :: utf16Take cs (w - utf16Len c) else []

/-- JavaScript String.prototype.repeat for a nonnegative count. -/
def strRepeat (s : String) : Nat → String
  | 0 => ""
  | n + 1 => s ++ strRepeat s n

/-- pad (src/ascii-viz.ts lines 55-59): truncate to the width when the
string is at least that long, otherwise pad with spaces on the right
(left alignment) or on the left (right alignment). -/
def pad (s : String) (width : Nat) (alignLeft : Bool) : String :=
  if width ≤ jsLength s then String.mk (utf16Take s.data width)
  else
    let padding := strRepeat " " (width - jsLength s)
    if alignLeft then s ++ padding else padding ++ s

/-- bar (src/ascii-viz.ts lines 64-76): an empty bar when the maximum is
zero; otherwise floor(min(value/max, 1) * width) full blocks, an
eighth-block partial glyph when the fractional remainder maps to a
positive index and there is room, then right-padding with spaces to the
width.  The source computes in binary doubles and its repeat would throw
on a negative count; the model is over the rationals and is used on the
source's nonnegative inputs. -/
def barContent (value mx : ℚ) (width : Nat) : String :=
  let r := min (value / mx) 1
  let fullBlocks : Int := Rat.floor (r * (width : ℚ))
  let rem : ℚ := r * (width : ℚ) - (fullBlocks : ℚ)
  let subIdx : Int := Rat.floor (rem * 8)
  let res := strRepeat BAR_FULL fullBlocks.toNat
  if 0 < subIdx ∧ jsLength res < width then res ++ barEighths.getD subIdx.toNat ""
  else res

/-- The full bar function: the zero-maximum guard, then the block
content padded to the width. -/
def bar (value mx : ℚ) (width : Nat) : String :=
  if mx = 0 then strRepeat " " width
  else pad (barContent value mx width) width true

/-- Number.prototype.toFixed(0) for the nonnegative values the source
passes it: round half away from zero to an integer string. -/
def jsToFixed0 (q : ℚ) : String := toString (Rat.floor (q + 1 / 2)).toNat

/-- Number.prototype.toFixed(1) for nonnegative values: one decimal
digit, rounding half away from zero. -/
def jsToFixed1 (q : ℚ) : String :=
  let m := (Rat.floor (q * 10 + 1 / 2)).toNat
  toString (m / 10) ++ "." ++ toString (m % 10)

/-- Comma insertion on a reversed digit list: after every three digits
counted from the right, provided more digits follow. -/
def group3Rev : List Char → List Char
  | [] => []
  | [a] => [a]
  | [a, b] => [a, b]
  | [a, b, c] => [a, b, c]
  | a :: b :: c :: rest => a :: b :: c :: ',' :: group3Rev rest

/-- Number.prototype.toLocaleString() on a nonnegative integer, modelled
as en-US comma grouping of the decimal digits (the spec's examples fix
this locale; the runtime call is locale-dependent). -/
def toLocaleString (n : Nat) : String :=
  String.mk ((group3Rev (toString n).data.reverse).reverse)

/-- formatNumber (src/ascii-viz.ts lines 45-50): at least a million,
one decimal plus M; at least ten thousand, whole-number K; at least a
thousand, locale grouping; else verbatim.  The source call sites pass
nonnegative integral counts, modelled as naturals. -/
def formatNumber (num : Nat) : String :=
  if num ≥ 1000000 then jsToFixed1 ((num : ℚ) / 1000000) ++ "M"
  else if num ≥ 10000 then jsToFixed0 ((num : ℚ) / 1000) ++ "K"
  else if num ≥ 1000 then toLocaleString num
  else toString num

/-! ### Width lemmas for the bar renderer -/

theorem data_append (a b : String) : (a ++ b).data = a.data ++ b.data := rfl

theorem mk_length (l : List Char) : (String.mk l).length = l.length := rfl

theorem strRepeat_length (s : String) (n : Nat) :
    (strRepeat s n).length = n * s.length := by
  induction n with
  | zero => simp [strRepeat]
  | succ m ih =>
      show (s ++ strRepeat s m).length = _
      rw [String.length_append, ih]
      ring

theorem map_utf16Len_sum_eq (l : List Char) (h : ∀ c ∈ l, c.toNat < 65536) :
    (l.map utf16Len).sum = l.length := by
  induction l with
  | nil => rfl
  | cons c cs ih =>
      have hc : utf16Len c = 1 := by
        simp [utf16Len, h c (List.mem_cons_self c cs)]
      simp [hc, ih fun x hx => h x (List.mem_cons_of_mem c hx)]
      omega

theorem jsLength_eq_length (s : String) (h : ∀ c ∈ s.data, c.toNat < 65536) :
    jsLength s = s.length := map_utf16Len_sum_eq s.data h

theorem utf16Take_length (l : List Char) (w : Nat) (h : ∀ c ∈ l, c.toNat < 65536) :
    (utf16Take l w).length = min w l.length := by
  induction l generalizing w with
  | nil => simp [utf16Take]
  | cons c cs ih =>
      have hc : utf16Len c = 1 := by
        simp [utf16Len, h c (List.mem_cons_self c cs)]
      cases w with
      | zero => simp [utf16Take, hc]
      | succ m =>
          have := ih m fun x hx => h x (List.mem_cons_of_mem c hx)
          simp [utf16Take, hc, this]
          omega

theorem pad_length (s : String) (w : Nat) (al : Bool)
    (h : ∀ c ∈ s.data, c.toNat < 65536) : (pad s w al).length = w := by
  unfold pad
  by_cases hw : w ≤ jsLength s
  · rw [if_pos hw, mk_length, utf16Take_length s.data w h]
    have := jsLength_eq_length s h
    have : s.length = s.data.length := rfl
    omega
  · rw [if_neg hw]
    have hlen := jsLength_eq_length s h
    have hrep : (strRepeat " " (w - jsLength s)).length = w - jsLength s := by
      rw [strRepeat_length]
      have h1 : (" " : String).length = 1 := rfl
      rw [h1, Nat.mul_one]
    have hsl : s.length = s.data.length := rfl
    cases al <;> simp only [if_true, if_false, Bool.false_eq_true, String.length_append] <;>
      omega

theorem mem_strRepeat (s : String) (n : Nat) (c : Char)
    (hc : c ∈ (strRepeat s n).data) : c ∈ s.data := by
  induction n with
  | zero => cases hc
  | succ m ih =>
      have : (strRepeat s (m + 1)).data = s.data ++ (strRepeat s m).data := rfl
      rw [this] at hc
      rcases List.mem_append.mp hc with h1 | h2
      · exact h1
      · exact ih h2

theorem barEighths_all_bmp : ∀ t ∈ barEighths, ∀ c ∈ t.data, c.toNat < 65536 := by
  decide

theorem barEighths_bmp (i : Nat) (c : Char)
    (hc : c ∈ (barEighths.getD i "").data) : c.toNat < 65536 := by
  rcases getD_mem_or barEighths i "" with h | h
  · exact barEighths_all_bmp _ h c hc
  · rw [h] at hc; cases hc

theorem barContent_bmp (value mx : ℚ) (width : Nat) :
    ∀ c ∈ (barContent value mx width).data, c.toNat < 65536 := by
  intro c hc
  unfold barContent at hc
  simp only [] at hc
  have hfull : ∀ x ∈ BAR_FULL.data, x.toNat < 65536 := by decide
  split at hc
  · rw [data_append] at hc
    rcases List.mem_append.mp hc with h1 | h2
    · exact hfull c (mem_strRepeat BAR_FULL _ c h1)
    · exact barEighths_bmp _ c h2
  · exact hfull c (mem_strRepeat BAR_FULL _ c hc)

theorem bar_length (value mx : ℚ) (width : Nat) :
    (bar value mx width).length = width := by
  unfold bar
  by_cases hm : mx = 0
  · rw [if_pos hm, strRepeat_length]
    have h1 : (" " : String).length = 1 := rfl
    rw [h1, Nat.mul_one]
  · rw [if_neg hm]
    exact pad_length _ width true (barContent_bmp value mx width)

/-! ## Claim theorems C6 and C7 -/

/-- C6: bar(0,100,10) is ten blank columns; bar(100,100,10) is ten full
blocks; bar(50,100,8) is four full blocks padded to width 8 with no
glyph for the exact half; bar(33,100,10) is three full blocks, the
eighth-block glyph for the 0.3 remainder (index floor(0.3*8) = 2), and
trailing spaces; a zero maximum always gives the all-spaces bar; and for
the source's nonnegative inputs the result is always exactly the
requested width. -/
theorem claim_C6_bar_rendering :
    bar 0 100 10 = "          " ∧
    bar 100 100 10 = "██████████" ∧
    bar 50 100 8 = "████    " ∧
    bar 33 100 10 = "███▎      " ∧
    (∀ (v : ℚ) (w : Nat), bar v 0 w = strRepeat " " w) ∧
    (∀ (v m : ℚ) (w : Nat), 0 ≤ v → 0 ≤ m → (bar v m w).length = w) := by
  refine ⟨by with_unfolding_all decide, by with_unfolding_all decide,
    by with_unfolding_all decide, by with_unfolding_all decide,
    fun v w => by simp [bar], fun v m w _ _ => bar_length v m w⟩

/-- C6 witness: the length clause applied at a concrete nonnegative
input. -/
theorem claim_C6_bar_rendering_witness :
    (0 : ℚ) ≤ 7 ∧ (0 : ℚ) ≤ 9 ∧ (bar 7 9 5).length = 5 :=
  ⟨by norm_num, by norm_num,
    claim_C6_bar_rendering.2.2.2.2.2 7 9 5 (by norm_num) (by norm_num)⟩

/-- C7: formatNumber maps 999 to "999", 1500 to "1,500", 15000 to
"15K" and 2500000 to "2.5M"; in general, at least a million gives a
one-decimal M string, ten thousand up to a million gives a whole-number
K string, one thousand up to ten thousand gives a comma-grouped string,
and smaller values render verbatim. -/
theorem claim_C7_format_number :
    formatNumber 999 = "999" ∧
    formatNumber 1500 = "1,500" ∧
    formatNumber 15000 = "15K" ∧
    formatNumber 2500000 = "2.5M" ∧
    formatNumber 9999 = "9,999" ∧
    (∀ n, n < 1000 → formatNumber n = toString n) ∧
    (∀ n, 1000 ≤ n → n < 10000 → formatNumber n = toLocaleString n) ∧
    (∀ n, 10000 ≤ n → n < 1000000 → ∃ a : Nat, formatNumber n = toString a ++ "K") ∧
    (∀ n, 1000000 ≤ n →
      ∃ a b : Nat, b < 10 ∧ formatNumber n = toString a ++ "." ++ toString b ++ "M") := by
  refine ⟨by decide, by decide, by with_unfolding_all decide,
    by with_unfolding_all decide, by decide, ?_, ?_, ?_, ?_⟩
  · intro n h
    have h1 : ¬ n ≥ 1000000 := by omega
    have h2 : ¬ n ≥ 10000 := by omega
    have h3 : ¬ n ≥ 1000 := by omega
    simp [formatNumber, h1, h2, h3]
  · intro n h h'
    have h1 : ¬ n ≥ 1000000 := by omega
    have h2 : ¬ n ≥ 10000 := by omega
    have h3 : n ≥ 1000 := by omega
    simp [formatNumber, h1, h2, h3]
  · intro n h h'
    have h1 : ¬ n ≥ 1000000 := by omega
    have h2 : n ≥ 10000 := by omega
    simp only [formatNumber, h1, h2, if_true, if_false, ge_iff_le, jsToFixed0]
    exact ⟨_, rfl⟩
  · intro n h
    have h1 : n ≥ 1000000 := by omega
    simp only [formatNumber, h1, if_true, ge_iff_le]
    refine ⟨(Rat.floor ((n : ℚ) / 1000000 * 10 + 1 / 2)).toNat / 10,
      (Rat.floor ((n : ℚ) / 1000000 * 10 + 1 / 2)).toNat % 10, by omega, ?_⟩
    simp [jsToFixed1]

/-- C7 witness: the tier clauses applied at concrete inputs. -/
theorem claim_C7_format_number_witness :
    (42 < 1000 ∧ formatNumber 42 = toString 42) ∧
    (1000 ≤ 4321 ∧ 4321 < 10000 ∧ formatNumber 4321 = toLocaleString 4321) :=
  ⟨⟨by omega, claim_C7_format_number.2.2.2.2.2.1 42 (by omega)⟩,
   ⟨by omega, by omega,
     claim_C7_format_number.2.2.2.2.2.2.1 4321 (by omega) (by omega)⟩⟩

/-! ### Dashboard and bar-chart composition (createDashboard, createBarChart) -/

/-- The fixed overall width (constant W = 78 in both composers). -/
def dashWidth : Nat := 78

/-- hline (src/ascii-viz.ts lines 81-83), called only with its default
junction characters. -/
def hline (width : Nat) : String := BOX.LT ++ strRepeat BOX.H (width - 2) ++ BOX.RT

/-- colorBar (lines 95-98). -/
def colorBar (value mx : ℚ) (width : Nat) (color : String) : String :=
  color ++ bar value mx width ++ C.RESET

/-- One entry of the topClients input. -/
structure TopClientEntry where
  ip : String
  name : Option String
  count : Nat
deriving Repr, DecidableEq

/-- One entry of the topBlocked / topPermitted inputs. -/
structure TopDomainEntry where
  domain : String
  count : Nat
deriving Repr, DecidableEq

/-- The queries block of the stats input. -/
structure QueriesStats where
  total : Nat
  blocked : Nat
  percent_blocked : ℚ
  forwarded : Nat
  cached : Nat
  unique_domains : Nat
deriving Repr, DecidableEq

/-- The clients block of the stats input. -/
structure ClientsStats where
  active : Nat
  total : Nat
deriving Repr, DecidableEq

/-- The gravity block of the stats input. -/
structure GravityStats where
  domains_being_blocked : Nat
  last_update : Nat
deriving Repr, DecidableEq

/-- The input record of createDashboard. -/
structure DashboardStats where
  queries : QueriesStats
  clients : ClientsStats
  gravity : GravityStats
  topClients : Option (List TopClientEntry)
  topBlocked : Option (List TopDomainEntry)
  topPermitted : Option (List TopDomainEntry)
deriving Repr, DecidableEq

/-- Math.max over the counts of a list, used only on nonempty lists. -/
def listMaxCount (l : List Nat) : Nat := l.foldl max 0

/-- The all-spaces interior row pushed between sections. -/
def dashBlankRow : String :=
  C.CYAN ++ BOX.V ++ C.RESET ++ strRepeat " " (dashWidth - 2) ++ C.CYAN ++ BOX.V ++ C.RESET

/-- The dimmed thin-rule row under each section header. -/
def dashThinRow : String :=
  C.CYAN ++ BOX.V ++ C.RESET ++ " " ++ C.DIM ++ strRepeat BOX.THIN (dashWidth - 6) ++
    C.RESET ++ " " ++ C.CYAN ++ BOX.V ++ C.RESET

/-- One top-clients row (line 153): label padded to 16, a 40-column
bright-blue bar, the count right-padded to 8, and a two-column
percentage of total queries. -/
def dashClientRow (totalQueries maxCount : Nat) (c : TopClientEntry) : String :=
  C.CYAN ++ BOX.V ++ C.RESET ++ " " ++ pad (jsStringOr c.name c.ip) 16 true ++ " " ++
    colorBar (c.count : ℚ) (maxCount : ℚ) 40 C.BRIGHT_BLUE ++ "  " ++ C.WHITE ++
    pad (formatNumber c.count) 8 false ++ C.RESET ++ " " ++ C.DIM ++ "(" ++
    pad (jsToFixed0 ((c.count : ℚ) / (totalQueries : ℚ) * 100)) 2 false ++ "%)" ++
    C.RESET ++ C.CYAN ++ BOX.V ++ C.RESET

/-- One top-blocked/top-permitted row (lines 169 and 185): label padded
to 40, a 20-column bar in the section color, the count right-padded to
8. -/
def dashDomainRow (maxCount : Nat) (color : String) (d : TopDomainEntry) : String :=
  C.CYAN ++ BOX.V ++ C.RESET ++ " " ++ pad d.domain 40 true ++ " " ++
    colorBar (d.count : ℚ) (maxCount : ℚ) 20 color ++ " " ++ C.WHITE ++
    pad (formatNumber d.count) 8 false ++ C.RESET ++ C.CYAN ++ BOX.V ++ C.RESET

/-- createDashboard (src/ascii-viz.ts lines 103-194) as its list of
lines, in push order: header, summary section, then the three optional
sections, each emitted only when its data is present and nonempty, then
the bottom border. -/
def createDashboardLines (stats : DashboardStats) : List String :=
  [C.CYAN ++ BOX.TL ++ strRepeat BOX.H (dashWidth - 2) ++ BOX.TR ++ C.RESET,
   C.CYAN ++ BOX.V ++ C.RESET ++ C.BOLD ++ C.BRIGHT_GREEN ++
     "                         🛡️  PI-HOLE DASHBOARD                          " ++ C.RESET ++ C.CYAN ++ BOX.V ++ C.RESET,
   C.CYAN ++ hline dashWidth ++ C.RESET,
   dashBlankRow,
   C.CYAN ++ BOX.V ++ C.RESET ++ C.BOLD ++ C.YELLOW ++ " 📊 SUMMARY" ++ C.RESET ++
     strRepeat " " (dashWidth - 14) ++ C.CYAN ++ BOX.V ++ C.RESET,
   dashThinRow,
   C.CYAN ++ BOX.V ++ C.RESET ++ " Total Queries:      " ++ C.BRIGHT_CYAN ++
     pad (formatNumber stats.queries.total) 12 true ++ C.RESET ++
     "    Domains Blocked:    " ++ C.MAGENTA ++
     pad (formatNumber stats.gravity.domains_being_blocked) 12 true ++ C.RESET ++
     C.CYAN ++ BOX.V ++ C.RESET,
   C.CYAN ++ BOX.V ++ C.RESET ++ " Blocked:            " ++ C.BRIGHT_RED ++
     pad (formatNumber stats.queries.blocked) 12 true ++ C.RESET ++
     "    Active Clients:     " ++ C.GREEN ++
     pad (toString stats.clients.active) 12 true ++ C.RESET ++
     C.CYAN ++ BOX.V ++ C.RESET,
   C.CYAN ++ BOX.V ++ C.RESET ++ " Block Rate:         " ++ C.BRIGHT_RED ++
     pad (jsToFixed1 stats.queries.percent_blocked ++ "%") 12 true ++ C.RESET ++
     "    Total Clients:      " ++ C.DIM ++
     pad (toString stats.clients.total) 12 true ++ C.RESET ++
     C.CYAN ++ BOX.V ++ C.RESET,
   dashBlankRow] ++
  (match stats.topClients with
   | some tc =>
       if tc.length > 0 then
         [C.CYAN ++ hline dashWidth ++ C.RESET,
          C.CYAN ++ BOX.V ++ C.RESET ++ C.BOLD ++ C.YELLOW ++ " 🔝 TOP CLIENTS" ++ C.RESET ++
            strRepeat " " (dashWidth - 18) ++ C.CYAN ++ BOX.V ++ C.RESET,
          dashThinRow] ++
         (tc.take 6).map
           (dashClientRow stats.queries.total
             (listMaxCount (tc.map TopClientEntry.count))) ++
         [dashBlankRow]
       else []
   | none => []) ++
  (match stats.topBlocked with
   | some tb =>
       if tb.length > 0 then
         [C.CYAN ++ hline dashWidth ++ C.RESET,
          C.CYAN ++ BOX.V ++ C.RESET ++ C.BOLD ++ C.YELLOW ++ " 🚫 TOP BLOCKED DOMAINS" ++ C.RESET ++
            strRepeat " " (dashWidth - 26) ++ C.CYAN ++ BOX.V ++ C.RESET,
          dashThinRow] ++
         (tb.take 6).map
           (dashDomainRow (listMaxCount (tb.map TopDomainEntry.count)) C.BRIGHT_RED) ++
         [dashBlankRow]
       else []
   | none => []) ++
  (match stats.topPermitted with
   | some tp =>
       if tp.length > 0 then
         [C.CYAN ++ hline dashWidth ++ C.RESET,
          C.CYAN ++ BOX.V ++ C.RESET ++ C.BOLD ++ C.YELLOW ++ " 🌐 TOP PERMITTED DOMAINS" ++ C.RESET ++
            strRepeat " " (dashWidth - 28) ++ C.CYAN ++ BOX.V ++ C.RESET,
          dashThinRow] ++
         (tp.take 6).map
           (dashDomainRow (listMaxCount (tp.map TopDomainEntry.count)) C.BRIGHT_GREEN) ++
         [dashBlankRow]
       else []
   | none => []) ++
  [C.CYAN ++ BOX.BL ++ strRepeat BOX.H (dashWidth - 2) ++ BOX.BR ++ C.RESET]

/-- createDashboard joins its lines with newlines. -/
def createDashboard (stats : DashboardStats) : String :=
  String.intercalate "\n" (createDashboardLines stats)

/-- One item of the bar-chart input. -/
structure ChartItem where
  label : String
  value : Nat
deriving Repr, DecidableEq

/-- The optional percentage suffix of a chart row: present only when the
total argument is truthy. -/
def chartPct (value : Nat) (total : Option Nat) : String :=
  match total with
  | some t =>
      if t = 0 then ""
      else C.DIM ++ " (" ++ jsToFixed0 ((value : ℚ) / (t : ℚ) * 100) ++ "%)" ++ C.RESET
  | none => ""

/-- One chart row (line 223): label padded to 30, a 30-column bar, the
count right-padded to 8, and the optional percentage. -/
def chartRow (maxValue : Nat) (total : Option Nat) (barColor : String)
    (it : ChartItem) : String :=
  C.CYAN ++ BOX.V ++ C.RESET ++ " " ++ pad it.label 30 true ++ " " ++
    colorBar (it.value : ℚ) (maxValue : ℚ) 30 barColor ++ " " ++ C.WHITE ++
    pad (formatNumber it.value) 8 false ++ C.RESET ++ chartPct it.value total ++
    C.CYAN ++ BOX.V ++ C.RESET

/-- createBarChart (src/ascii-viz.ts lines 199-231) as its list of
lines: border, title row padded by the title's UTF-16 length, separator,
blank, then either the no-data row or up to ten item rows, then a blank
row and the bottom border. -/
def createBarChartLines (title : String) (items : List ChartItem)
    (total : Option Nat) (barColor : String) : List String :=
  [C.CYAN ++ BOX.TL ++ strRepeat BOX.H (dashWidth - 2) ++ BOX.TR ++ C.RESET,
   C.CYAN ++ BOX.V ++ C.RESET ++ C.BOLD ++ C.YELLOW ++ " " ++ title ++ C.RESET ++
     strRepeat " " (dashWidth - jsLength title - 4) ++ C.CYAN ++ BOX.V ++ C.RESET,
   C.CYAN ++ hline dashWidth ++ C.RESET,
   dashBlankRow] ++
  (if items.length = 0 then
     [C.CYAN ++ BOX.V ++ C.RESET ++ C.DIM ++ " No data available" ++ C.RESET ++
       strRepeat " " (dashWidth - 21) ++ C.CYAN ++ BOX.V ++ C.RESET]
   else
     (items.take 10).map
       (chartRow (listMaxCount (items.map ChartItem.value)) total barColor)) ++
  [dashBlankRow,
   C.CYAN ++ BOX.BL ++ strRepeat BOX.H (dashWidth - 2) ++ BOX.BR ++ C.RESET]

/-- createBarChart joins its lines with newlines. -/
def createBarChart (title : String) (items : List ChartItem)
    (total : Option Nat) (barColor : String) : String :=
  String.intercalate "\n" (createBarChartLines title items total barColor)

/-- Removal of ANSI escape sequences of the form ESC [ ... m, the only
form the module emits; the flag tracks being inside an escape. -/
def stripAnsiAux : Bool → List Char → List Char
  | _, [] => []
  | true, c :: cs => if c = 'm' then stripAnsiAux false cs else stripAnsiAux true cs
  | false, c :: cs =>
      if c = '\x1b' then stripAnsiAux true cs else c :: stripAnsiAux false cs

/-- The visible width of an emitted line: its Unicode code points with
all ANSI color escapes removed. -/
def visibleLen (s : String) : Nat := (stripAnsiAux false s.data).length

/-- A representative dashboard input: a summary plus one top-blocked
entry. -/
def sampleStats : DashboardStats :=
  ⟨⟨50000, 12345, 247 / 10, 1, 2, 3⟩, ⟨5, 9⟩, ⟨150000, 0⟩,
    none, some [⟨"ads.example.com", 900⟩], none⟩

/-! ## Claim theorem C8 -/

set_option maxRecDepth 8000 in
/-- C8 evaluation: the claim that every line of the dashboard and of the
bar chart has a visible width of exactly 78 columns fails on the code.
On a representative input the dashboard's lines measure 78, 74, 78, 78,
76, 76, 71, 71, 71, 78, 78, 76, 76, 73, 78, 78 visible code points
(ANSI escapes stripped): the title row is 74, the section-header rows
76, the thin-rule rows 76, the three summary rows 71, and a top-blocked
row 73.  A bar chart with a percentage column even produces a 79-column
row.  Only the border, separator and blank rows are 78. -/
theorem claim_C8_line_widths :
    ((createDashboardLines sampleStats).map visibleLen =
      [78, 74, 78, 78, 76, 76, 71, 71, 71, 78, 78, 76, 76, 73, 78, 78]) ∧
    ((createBarChartLines "🚫 TOP BLOCKED DOMAINS" [⟨"ads.example.com", 900⟩]
        (some 5000) C.BRIGHT_RED).map visibleLen =
      [78, 76, 78, 78, 79, 78, 78]) ∧
    ¬ (∀ l ∈ createDashboardLines sampleStats, visibleLen l = 78) ∧
    ¬ (∀ l ∈ createBarChartLines "🚫 TOP BLOCKED DOMAINS"
        [⟨"ads.example.com", 900⟩] (some 5000) C.BRIGHT_RED, visibleLen l = 78) := by
  refine ⟨?_, ?_, ?_, ?_⟩ <;> with_unfolding_all decide
